import Mathlib

/-!
Shallow embedding of the four gradio demo scripts of the repository
`kirenz/gradio-erste-schritte`:

* `hello_gradio.py`          — `greet` bound through `gr.Interface`
* `hello_gradio_blocks.py`   — `greet` bound through a `gr.Blocks` button click
* `gradio_components.py`     — `compute` bound through `gr.Interface`
* `gradio_components_blocks.py` — `compute` bound through a button click

Each Python backend function is translated to a Lean function; the component
declarations (textboxes, dropdown, slider, number field) become `Field`
values; the four registrations become `Binding` values.  The dispatch
behaviour of the external gradio framework (reading input fields in order,
calling the function positionally, distributing the returned tuple over the
output fields) is not part of the repository and is modelled from the spec.
-/

namespace GradioDemo

/-- The backend function of `hello_gradio.py`:
`def greet(name): return f"Hallo, {name}!! 🙂"`. -/
def HelloGradio.greet (name : String) : String :=
  "Hallo, " ++ name ++ "!! 🙂"

/-- The backend function of `hello_gradio_blocks.py`:
`def greet(name): return f"Hallo, {name}!! 🙂"`. -/
def HelloGradioBlocks.greet (name : String) : String :=
  "Hallo, " ++ name ++ "!! 🙂"

/-- The backend function of `gradio_components.py`:
`message = f'{name} fühlt sich {stimmung}'; score = intensitaet * 10;
return message, score`. -/
def GradioComponents.compute (name stimmung : String) (intensitaet : Int) :
    String × Int :=
  (name ++ " fühlt sich " ++ stimmung, intensitaet * 10)

/-- The backend function of `gradio_components_blocks.py`:
`message = f"{name} fühlt sich {stimmung}"; score = intensitaet * 10;
return message, score`. -/
def GradioComponentsBlocks.compute (name stimmung : String) (intensitaet : Int) :
    String × Int :=
  (name ++ " fühlt sich " ++ stimmung, intensitaet * 10)

/-- Primitive and tuple values passed between fields and backend functions
(the Python value shapes that occur in these scripts). -/
inductive Val where
  | str : String → Val
  | int : Int → Val
  | tuple : List Val → Val

/-- A value is a primitive (string or integer), not a tuple. -/
def Val.isPrim : Val → Bool
  | .str _ => true
  | .int _ => true
  | .tuple _ => false

/-- A value is a Python tuple. -/
def Val.isTuple : Val → Bool
  | .tuple _ => true
  | _ => false

/-- A value is a tuple all of whose elements are primitives. -/
def Val.isTupleOfPrims : Val → Bool
  | .tuple vs => vs.all Val.isPrim
  | _ => false

/-- The Python-level value returned by `greet` in `hello_gradio.py`:
a single string (the `return` statement returns one f-string, not a tuple). -/
def greetReturn (name : String) : Val :=
  .str (HelloGradio.greet name)

/-- The Python-level value returned by `greet` in `hello_gradio_blocks.py`. -/
def greetReturnBlocks (name : String) : Val :=
  .str (HelloGradioBlocks.greet name)

/-- The Python-level value returned by `compute` in `gradio_components.py`:
`return message, score` builds a pair tuple. -/
def computeReturn (name stimmung : String) (intensitaet : Int) : Val :=
  .tuple [.str (GradioComponents.compute name stimmung intensitaet).1,
          .int (GradioComponents.compute name stimmung intensitaet).2]

/-- The Python-level value returned by `compute` in
`gradio_components_blocks.py`. -/
def computeReturnBlocks (name stimmung : String) (intensitaet : Int) : Val :=
  .tuple [.str (GradioComponentsBlocks.compute name stimmung intensitaet).1,
          .int (GradioComponentsBlocks.compute name stimmung intensitaet).2]

/-- Positional application of `greet` (`hello_gradio.py`) to a list of
argument values; `none` when the arguments do not fit the one-parameter
signature `greet(name)` with its string use. -/
def greetCall : List Val → Option Val
  | [.str name] => some (greetReturn name)
  | _ => none

/-- Positional application of `greet` (`hello_gradio_blocks.py`). -/
def greetCallBlocks : List Val → Option Val
  | [.str name] => some (greetReturnBlocks name)
  | _ => none

/-- Positional application of `compute` (`gradio_components.py`) to a list of
argument values, following the signature
`compute(name: str, stimmung: str, intensitaet: int)`. -/
def computeCall : List Val → Option Val
  | [.str name, .str stimmung, .int intensitaet] =>
      some (computeReturn name stimmung intensitaet)
  | _ => none

/-- Positional application of `compute` (`gradio_components_blocks.py`). -/
def computeCallBlocks : List Val → Option Val
  | [.str name, .str stimmung, .int intensitaet] =>
      some (computeReturnBlocks name stimmung intensitaet)
  | _ => none

/-- Number of positional parameters of `greet(name)`. -/
def greetArity : Nat := 1

/-- Number of positional parameters of
`compute(name, stimmung, intensitaet)`. -/
def computeArity : Nat := 3

/-- The kind of a UI component declared in the scripts. -/
inductive FieldKind where
  | textbox
  | dropdown (choices : List String)
  | slider (minimum maximum step : Int)
  | number
  deriving DecidableEq

/-- A declared UI component: its kind and its label. -/
structure Field where
  kind : FieldKind
  label : String
  deriving DecidableEq

/-- The component `gr.Textbox(label="Name eingeben")` (input textbox of both mood scripts
and of both hello scripts). -/
def nameField : Field :=
  { kind := .textbox, label := "Name eingeben" }

/-- The component `gr.Dropdown(choices=["glücklich", "traurig", "aufgeregt"],
label="Stimmung auswählen")`. -/
def moodField : Field :=
  { kind := .dropdown ["glücklich", "traurig", "aufgeregt"],
    label := "Stimmung auswählen" }

/-- The component `gr.Slider(minimum=1, maximum=10, step=1,
label="Intensität der Stimmung")`. -/
def intensityField : Field :=
  { kind := .slider 1 10 1, label := "Intensität der Stimmung" }

/-- The component `gr.Textbox(label="Nachricht")` (message output of the mood scripts). -/
def messageField : Field :=
  { kind := .textbox, label := "Nachricht" }

/-- The component `gr.Number(label="Stimmungswert")` (score output of the mood scripts). -/
def scoreField : Field :=
  { kind := .number, label := "Stimmungswert" }

/-- The component `gr.Textbox(label="Begrüßung")` (output of both hello scripts). -/
def greetingField : Field :=
  { kind := .textbox, label := "Begrüßung" }

/-- A registration of a backend function between an ordered list of input
fields and an ordered list of output fields (a `gr.Interface(...)` call or a
`button.click(...)` call). -/
structure Binding where
  inputs : List Field
  fn : List Val → Option Val
  outputs : List Field

/-- The `gr.Interface(fn=compute, inputs=[...], outputs=[...])` registration
of `gradio_components.py`. -/
def componentsInterfaceBinding : Binding :=
  { inputs := [nameField, moodField, intensityField],
    fn := computeCall,
    outputs := [messageField, scoreField] }

/-- The `compute_button.click(compute, inputs=[name_input, mood_input,
intensity_input], outputs=[message_output, score_output])` registration of
`gradio_components_blocks.py`. -/
def componentsClickBinding : Binding :=
  { inputs := [nameField, moodField, intensityField],
    fn := computeCallBlocks,
    outputs := [messageField, scoreField] }

/-- The `gr.Interface(fn=greet, inputs=gr.Textbox(...), outputs=gr.Textbox(...))`
registration of `hello_gradio.py` (gradio wraps the scalar components into
singleton lists). -/
def helloInterfaceBinding : Binding :=
  { inputs := [nameField],
    fn := greetCall,
    outputs := [greetingField] }

/-- The `greet_button.click(greet, inputs=name_input, outputs=output_box)`
registration of `hello_gradio_blocks.py`. -/
def helloClickBinding : Binding :=
  { inputs := [nameField],
    fn := greetCallBlocks,
    outputs := [greetingField] }

/-- Modelled from the spec: the gradio framework distributes a returned tuple
element-wise over the output fields and feeds a single non-tuple return value
to the single output field.  This function turns a backend return value into
the ordered list of output values. -/
def splitOutputs : Val → List Val
  | .tuple vs => vs
  | v => [v]

/-- Modelled from the spec: writing the k-th output value to the k-th output
field of a label-indexed UI state. -/
def writeOutputs : List Field → List Val → (String → Val) → (String → Val)
  | f :: fs, v :: vs, σ => writeOutputs fs vs (fun l => if l = f.label then v else σ l)
  | _, _, σ => σ

/-- Modelled from the spec: the framework's event dispatch, which is not code
of this repository.  Invoking a binding reads the current value of each input
field (in order), calls the backend function with those values as positional
arguments, and writes each element of the returned tuple (in order) to the
corresponding output field; `none` when the call or the output count fails. -/
def invokeBinding (b : Binding) (σ : String → Val) : Option (String → Val) :=
  match b.fn (b.inputs.map fun f => σ f.label) with
  | none => none
  | some r =>
      if (splitOutputs r).length = b.outputs.length then
        some (writeOutputs b.outputs (splitOutputs r) σ)
      else none

/-- A concrete UI state for the mood demos: the three input fields hold
`"Anna"`, `"glücklich"` and `5`; every other label holds the empty string. -/
def sampleMoodState : String → Val := fun l =>
  if l = "Name eingeben" then .str "Anna"
  else if l = "Stimmung auswählen" then .str "glücklich"
  else if l = "Intensität der Stimmung" then .int 5
  else .str ""

/-- A second mood UI state that agrees with `sampleMoodState` on all input
fields but differs on the `"Nachricht"` output field. -/
def sampleMoodStateAlt : String → Val := fun l =>
  if l = "Nachricht" then .str "alter Text" else sampleMoodState l

/-- A concrete UI state for the hello demos: the name textbox holds
`"World"`; every other label holds the empty string. -/
def sampleHelloState : String → Val := fun l =>
  if l = "Name eingeben" then .str "World" else .str ""

/-- A second hello UI state that agrees with `sampleHelloState` on the input
field but differs on the `"Begrüßung"` output field. -/
def sampleHelloStateAlt : String → Val := fun l =>
  if l = "Begrüßung" then .str "alter Text" else sampleHelloState l

/-- Helper: the result of invoking a binding, observed through any view `g`
of the UI state, depends only on the values of the declared input fields and
on how `g` reads the written outputs. -/
theorem invokeBinding_map_congr {α : Type} (b : Binding) (σ1 σ2 : String → Val)
    (h : b.inputs.map (fun f => σ1 f.label) = b.inputs.map (fun f => σ2 f.label))
    (g : (String → Val) → α)
    (hg : ∀ vs : List Val, vs.length = b.outputs.length →
        g (writeOutputs b.outputs vs σ1) = g (writeOutputs b.outputs vs σ2)) :
    (invokeBinding b σ1).map g = (invokeBinding b σ2).map g := by
  unfold invokeBinding
  rw [h]
  cases b.fn (b.inputs.map fun f => σ2 f.label) with
  | none => rfl
  | some r =>
      by_cases hlen : (splitOutputs r).length = b.outputs.length
      · simp [hlen, hg _ hlen]
      · simp [hlen]

/-- C4: for every one of the four declared bindings, the number of input
fields equals the arity of the bound function, and the number of values the
function returns (for any arguments, hence in particular for the fields'
default inputs) equals the number of output fields. -/
theorem binding_arities :
    (componentsInterfaceBinding.inputs.length = computeArity
      ∧ ∀ (name stimmung : String) (intensitaet : Int),
          (splitOutputs (computeReturn name stimmung intensitaet)).length
            = componentsInterfaceBinding.outputs.length)
    ∧ (componentsClickBinding.inputs.length = computeArity
      ∧ ∀ (name stimmung : String) (intensitaet : Int),
          (splitOutputs (computeReturnBlocks name stimmung intensitaet)).length
            = componentsClickBinding.outputs.length)
    ∧ (helloInterfaceBinding.inputs.length = greetArity
      ∧ ∀ nm : String,
          (splitOutputs (greetReturn nm)).length
            = helloInterfaceBinding.outputs.length)
    ∧ (helloClickBinding.inputs.length = greetArity
      ∧ ∀ nm : String,
          (splitOutputs (greetReturnBlocks nm)).length
            = helloClickBinding.outputs.length) :=
  ⟨⟨rfl, fun _ _ _ => rfl⟩, ⟨rfl, fun _ _ _ => rfl⟩,
   ⟨rfl, fun _ => rfl⟩, ⟨rfl, fun _ => rfl⟩⟩

/-- C9: under the declared slider constraint (`minimum=1`, `maximum=10`,
`step=1`, so an integer intensity between 1 and 10), the score returned by
`compute` is a multiple of 10 and lies between 10 and 100 inclusive (both
variants). -/
theorem score_in_slider_range (name stimmung : String) (i : Int)
    (h1 : 1 ≤ i) (h2 : i ≤ 10) :
    intensityField.kind = FieldKind.slider 1 10 1
    ∧ (10 : Int) ∣ (GradioComponents.compute name stimmung i).2
    ∧ 10 ≤ (GradioComponents.compute name stimmung i).2
    ∧ (GradioComponents.compute name stimmung i).2 ≤ 100
    ∧ (10 : Int) ∣ (GradioComponentsBlocks.compute name stimmung i).2
    ∧ 10 ≤ (GradioComponentsBlocks.compute name stimmung i).2
    ∧ (GradioComponentsBlocks.compute name stimmung i).2 ≤ 100 := by
  refine ⟨rfl, ⟨i, by simp only [GradioComponents.compute]; ring⟩, ?_, ?_,
    ⟨i, by simp only [GradioComponentsBlocks.compute]; ring⟩, ?_, ?_⟩ <;>
    simp only [GradioComponents.compute, GradioComponentsBlocks.compute] <;>
    omega

/-- Witness for C9 at the concrete slider value 5. -/
theorem score_in_slider_range_witness :
    ((1 : Int) ≤ 5 ∧ (5 : Int) ≤ 10)
    ∧ (intensityField.kind = FieldKind.slider 1 10 1
       ∧ (10 : Int) ∣ (GradioComponents.compute "Anna" "glücklich" 5).2
       ∧ 10 ≤ (GradioComponents.compute "Anna" "glücklich" 5).2
       ∧ (GradioComponents.compute "Anna" "glücklich" 5).2 ≤ 100
       ∧ (10 : Int) ∣ (GradioComponentsBlocks.compute "Anna" "glücklich" 5).2
       ∧ 10 ≤ (GradioComponentsBlocks.compute "Anna" "glücklich" 5).2
       ∧ (GradioComponentsBlocks.compute "Anna" "glücklich" 5).2 ≤ 100) :=
  ⟨⟨by decide, by decide⟩,
   score_in_slider_range "Anna" "glücklich" 5 (by decide) (by decide)⟩

/-- C1: the mood function `compute` applied to `("Anna", "glücklich", 5)`
returns exactly the pair `("Anna fühlt sich glücklich", 50)`, in both the
Interface variant (`gradio_components.py`) and the Blocks variant
(`gradio_components_blocks.py`). -/
theorem compute_anna_gluecklich_5 :
    GradioComponents.compute "Anna" "glücklich" 5
      = ("Anna fühlt sich glücklich", 50)
    ∧ GradioComponentsBlocks.compute "Anna" "glücklich" 5
      = ("Anna fühlt sich glücklich", 50) :=
  ⟨rfl, rfl⟩

/-- C2: the greeting function `greet` applied to `"World"` returns exactly
`"Hallo, World!! 🙂"`, in both the Interface variant (`hello_gradio.py`) and
the Blocks variant (`hello_gradio_blocks.py`). -/
theorem greet_world :
    HelloGradio.greet "World" = "Hallo, World!! 🙂"
    ∧ HelloGradioBlocks.greet "World" = "Hallo, World!! 🙂" :=
  ⟨rfl, rfl⟩

/-- C3: for every `name`, `stimmung` and integer `intensitaet`,
`compute` returns exactly the pair
`(name ++ " fühlt sich " ++ stimmung, intensitaet * 10)` — string
concatenation and a single multiplication, nothing else — in both variants. -/
theorem compute_is_concat_and_mul (name stimmung : String) (intensitaet : Int) :
    GradioComponents.compute name stimmung intensitaet
      = (name ++ " fühlt sich " ++ stimmung, intensitaet * 10)
    ∧ GradioComponentsBlocks.compute name stimmung intensitaet
      = (name ++ " fühlt sich " ++ stimmung, intensitaet * 10) :=
  ⟨rfl, rfl⟩

/-- C7 counterexample: the claim says every backend function returns a tuple
of primitive values, but `greet` returns a plain string: at input `"World"`
its Python return value is not a tuple. -/
theorem greet_returns_no_tuple :
    (greetReturn "World").isTuple = false :=
  rfl

/-- C7 (amended): `compute` returns a tuple of primitive values in both
variants, while `greet` returns a single primitive (string) value, not a
tuple, in both variants. -/
theorem backend_return_shapes (name stimmung : String) (intensitaet : Int)
    (nm : String) :
    (computeReturn name stimmung intensitaet).isTupleOfPrims = true
    ∧ (computeReturnBlocks name stimmung intensitaet).isTupleOfPrims = true
    ∧ (greetReturn nm).isPrim = true
    ∧ (greetReturnBlocks nm).isPrim = true :=
  ⟨rfl, rfl, rfl, rfl⟩

/-- C8: the Interface variant and the Blocks variant of each demo bind
extensionally equal backend functions: the two `greet` definitions agree on
every input, and the two `compute` definitions agree on every input. -/
theorem variants_extensionally_equal (nm name stimmung : String)
    (intensitaet : Int) :
    HelloGradio.greet nm = HelloGradioBlocks.greet nm
    ∧ GradioComponents.compute name stimmung intensitaet
      = GradioComponentsBlocks.compute name stimmung intensitaet :=
  ⟨rfl, rfl⟩

/-- C10: for the empty-string input, `greet` still produces a greeting:
`greet("")` returns exactly `"Hallo, !! 🙂"` in both variants. -/
theorem greet_empty_string :
    HelloGradio.greet "" = "Hallo, !! 🙂"
    ∧ HelloGradioBlocks.greet "" = "Hallo, !! 🙂" :=
  ⟨rfl, rfl⟩

/-- C5: the backend functions are deterministic and stateless.  Invoking the
mood binding (resp. the hello binding) on two UI states that carry the same
values in the declared input fields produces the same output-field values: no
state outside the input arguments affects the result, so two invocations on
identical arguments yield identical outputs. -/
theorem backends_no_hidden_state (σ1 σ2 τ1 τ2 : String → Val)
    (hn : σ1 "Name eingeben" = σ2 "Name eingeben")
    (hs : σ1 "Stimmung auswählen" = σ2 "Stimmung auswählen")
    (hi : σ1 "Intensität der Stimmung" = σ2 "Intensität der Stimmung")
    (hw : τ1 "Name eingeben" = τ2 "Name eingeben") :
    (invokeBinding componentsClickBinding σ1).map
        (fun σ => (σ "Nachricht", σ "Stimmungswert"))
      = (invokeBinding componentsClickBinding σ2).map
        (fun σ => (σ "Nachricht", σ "Stimmungswert"))
    ∧ (invokeBinding helloClickBinding τ1).map (fun τ => τ "Begrüßung")
      = (invokeBinding helloClickBinding τ2).map (fun τ => τ "Begrüßung") := by
  constructor
  · apply invokeBinding_map_congr
    · simp [componentsClickBinding, nameField, moodField, intensityField, hn, hs, hi]
    · intro vs hvs
      rcases List.length_eq_two.mp
          (by simpa [componentsClickBinding] using hvs) with ⟨v1, v2, rfl⟩
      simp [writeOutputs, componentsClickBinding, messageField, scoreField]
  · apply invokeBinding_map_congr
    · simp [helloClickBinding, nameField, hw]
    · intro vs hvs
      rcases List.length_eq_one.mp
          (by simpa [helloClickBinding] using hvs) with ⟨v, rfl⟩
      simp [writeOutputs, helloClickBinding, greetingField]

/-- Witness for C5: two concrete UI states that agree on the input fields
but differ elsewhere give the same observed outputs. -/
theorem backends_no_hidden_state_witness :
    (sampleMoodState "Name eingeben" = sampleMoodStateAlt "Name eingeben"
     ∧ sampleMoodState "Stimmung auswählen"
        = sampleMoodStateAlt "Stimmung auswählen"
     ∧ sampleMoodState "Intensität der Stimmung"
        = sampleMoodStateAlt "Intensität der Stimmung"
     ∧ sampleHelloState "Name eingeben" = sampleHelloStateAlt "Name eingeben")
    ∧ ((invokeBinding componentsClickBinding sampleMoodState).map
          (fun σ => (σ "Nachricht", σ "Stimmungswert"))
        = (invokeBinding componentsClickBinding sampleMoodStateAlt).map
          (fun σ => (σ "Nachricht", σ "Stimmungswert"))
       ∧ (invokeBinding helloClickBinding sampleHelloState).map
          (fun τ => τ "Begrüßung")
        = (invokeBinding helloClickBinding sampleHelloStateAlt).map
          (fun τ => τ "Begrüßung")) :=
  ⟨⟨rfl, rfl, rfl, rfl⟩,
   backends_no_hidden_state sampleMoodState sampleMoodStateAlt
     sampleHelloState sampleHelloStateAlt rfl rfl rfl rfl⟩

/-- C6: in every declared binding the i-th input field feeds the i-th
positional parameter and the i-th returned value is written to the i-th
output field: in the mood bindings the field order (name textbox, mood
dropdown, intensity slider) matches the parameter order
`(name, stimmung, intensitaet)`, the first returned value (the message) lands
in the `"Nachricht"` textbox and the second (the score) in the
`"Stimmungswert"` number field, and in the hello bindings the single returned
greeting lands in the `"Begrüßung"` textbox; no other field is touched. -/
theorem binding_field_order (σ τ : String → Val)
    (name stimmung : String) (intensitaet : Int) (nm : String)
    (hn : σ "Name eingeben" = Val.str name)
    (hs : σ "Stimmung auswählen" = Val.str stimmung)
    (hi : σ "Intensität der Stimmung" = Val.int intensitaet)
    (hw : τ "Name eingeben" = Val.str nm) :
    (∃ σ', invokeBinding componentsInterfaceBinding σ = some σ'
        ∧ σ' "Nachricht"
            = Val.str (GradioComponents.compute name stimmung intensitaet).1
        ∧ σ' "Stimmungswert"
            = Val.int (GradioComponents.compute name stimmung intensitaet).2
        ∧ ∀ l, l ≠ "Nachricht" → l ≠ "Stimmungswert" → σ' l = σ l)
    ∧ (∃ σ', invokeBinding componentsClickBinding σ = some σ'
        ∧ σ' "Nachricht"
            = Val.str (GradioComponentsBlocks.compute name stimmung intensitaet).1
        ∧ σ' "Stimmungswert"
            = Val.int (GradioComponentsBlocks.compute name stimmung intensitaet).2
        ∧ ∀ l, l ≠ "Nachricht" → l ≠ "Stimmungswert" → σ' l = σ l)
    ∧ (∃ τ', invokeBinding helloInterfaceBinding τ = some τ'
        ∧ τ' "Begrüßung" = Val.str (HelloGradio.greet nm)
        ∧ ∀ l, l ≠ "Begrüßung" → τ' l = τ l)
    ∧ (∃ τ', invokeBinding helloClickBinding τ = some τ'
        ∧ τ' "Begrüßung" = Val.str (HelloGradioBlocks.greet nm)
        ∧ ∀ l, l ≠ "Begrüßung" → τ' l = τ l) := by
  refine ⟨⟨writeOutputs [messageField, scoreField]
        (splitOutputs (computeReturn name stimmung intensitaet)) σ,
        ?_, ?_, ?_, ?_⟩,
      ⟨writeOutputs [messageField, scoreField]
        (splitOutputs (computeReturnBlocks name stimmung intensitaet)) σ,
        ?_, ?_, ?_, ?_⟩,
      ⟨writeOutputs [greetingField] (splitOutputs (greetReturn nm)) τ,
        ?_, ?_, ?_⟩,
      ⟨writeOutputs [greetingField] (splitOutputs (greetReturnBlocks nm)) τ,
        ?_, ?_, ?_⟩⟩
  · simp [invokeBinding, componentsInterfaceBinding, nameField, moodField,
      intensityField, hn, hs, hi, computeCall, computeReturn, splitOutputs,
      messageField, scoreField, writeOutputs]
  · simp [computeReturn, splitOutputs, writeOutputs, messageField, scoreField]
  · simp [computeReturn, splitOutputs, writeOutputs, messageField, scoreField]
  · intro l h1 h2
    simp [computeReturn, splitOutputs, writeOutputs, messageField, scoreField,
      h1, h2]
  · simp [invokeBinding, componentsClickBinding, nameField, moodField,
      intensityField, hn, hs, hi, computeCallBlocks, computeReturnBlocks,
      splitOutputs, messageField, scoreField, writeOutputs]
  · simp [computeReturnBlocks, splitOutputs, writeOutputs, messageField,
      scoreField]
  · simp [computeReturnBlocks, splitOutputs, writeOutputs, messageField,
      scoreField]
  · intro l h1 h2
    simp [computeReturnBlocks, splitOutputs, writeOutputs, messageField,
      scoreField, h1, h2]
  · simp [invokeBinding, helloInterfaceBinding, nameField, hw, greetCall,
      greetReturn, splitOutputs, greetingField, writeOutputs]
  · simp [greetReturn, splitOutputs, writeOutputs, greetingField]
  · intro l h1
    simp [greetReturn, splitOutputs, writeOutputs, greetingField, h1]
  · simp [invokeBinding, helloClickBinding, nameField, hw, greetCallBlocks,
      greetReturnBlocks, splitOutputs, greetingField, writeOutputs]
  · simp [greetReturnBlocks, splitOutputs, writeOutputs, greetingField]
  · intro l h1
    simp [greetReturnBlocks, splitOutputs, writeOutputs, greetingField, h1]

/-- Witness for C6 at the concrete UI states holding
`("Anna", "glücklich", 5)` and `"World"`. -/
theorem binding_field_order_witness :
    (sampleMoodState "Name eingeben" = Val.str "Anna"
     ∧ sampleMoodState "Stimmung auswählen" = Val.str "glücklich"
     ∧ sampleMoodState "Intensität der Stimmung" = Val.int 5
     ∧ sampleHelloState "Name eingeben" = Val.str "World")
    ∧ ((∃ σ', invokeBinding componentsInterfaceBinding sampleMoodState = some σ'
          ∧ σ' "Nachricht" = Val.str (GradioComponents.compute "Anna" "glücklich" 5).1
          ∧ σ' "Stimmungswert" = Val.int (GradioComponents.compute "Anna" "glücklich" 5).2
          ∧ ∀ l, l ≠ "Nachricht" → l ≠ "Stimmungswert" → σ' l = sampleMoodState l)
      ∧ (∃ σ', invokeBinding componentsClickBinding sampleMoodState = some σ'
          ∧ σ' "Nachricht" = Val.str (GradioComponentsBlocks.compute "Anna" "glücklich" 5).1
          ∧ σ' "Stimmungswert" = Val.int (GradioComponentsBlocks.compute "Anna" "glücklich" 5).2
          ∧ ∀ l, l ≠ "Nachricht" → l ≠ "Stimmungswert" → σ' l = sampleMoodState l)
      ∧ (∃ τ', invokeBinding helloInterfaceBinding sampleHelloState = some τ'
          ∧ τ' "Begrüßung" = Val.str (HelloGradio.greet "World")
          ∧ ∀ l, l ≠ "Begrüßung" → τ' l = sampleHelloState l)
      ∧ (∃ τ', invokeBinding helloClickBinding sampleHelloState = some τ'
          ∧ τ' "Begrüßung" = Val.str (HelloGradioBlocks.greet "World")
          ∧ ∀ l, l ≠ "Begrüßung" → τ' l = sampleHelloState l)) :=
  ⟨⟨rfl, rfl, rfl, rfl⟩,
   binding_field_order sampleMoodState sampleHelloState "Anna" "glücklich" 5
     "World" rfl rfl rfl rfl⟩

end GradioDemo
